import Mathlib

/-! Verification development for the yt-download job/progress core.

Shallow embedding of `src/app.py`'s asynchronous job/progress tracking
subsystem: the sliding-window download rate limiter
(`check_download_rate_limit`), the in-memory progress registry
(`download_progress` dict, written by `progress_hook`, `download_video`
and the `/download` route, read by `/progress`, evicted by
`cleanup_old_progress`), and the global update cooldown guard inside
`update_ytdlp`.

Modelling conventions:
* `time.time()` values are modelled as integers (`Int`); the code
  only compares and subtracts them.
* Python dicts are modelled as total functions to `Option` (lookup) or,
  for the `defaultdict(list)` of the rate limiter, total functions with
  default `[]`.
* Mutation is modelled by explicit state passing: each operation takes
  the dict and returns the updated dict.
* Python's `round(x, 1)` on floats is modelled on `ℚ` as
  `round (x * 10) / 10` (Python uses banker's rounding on binary floats,
  which can differ at exact .x5 ties; none of the properties below
  depends on the tie direction).
-/

namespace YtDownload

/-- Constant `DOWNLOAD_RATE_LIMIT = 10  # max downloads`. -/
def DOWNLOAD_RATE_LIMIT : Nat := 10

/-- Constant `DOWNLOAD_RATE_WINDOW = 600  # 10 minutes in seconds`. -/
def DOWNLOAD_RATE_WINDOW : Int := 600

/-- Constant `UPDATE_COOLDOWN = 300  # 5 minutes in seconds`. -/
def UPDATE_COOLDOWN : Int := 300

/-- Result triple of `check_download_rate_limit`: `(allowed, remaining, reset_seconds)`. -/
structure AdmitResult where
  allowed : Bool
  remaining : Int
  reset_seconds : Int
deriving DecidableEq

/-- The pruning step `[t for t in download_requests[ip] if now - t < DOWNLOAD_RATE_WINDOW]`. -/
def pruneWindow (now : Int) (ts : List Int) : List Int :=
  ts.filter (fun t => now - t < DOWNLOAD_RATE_WINDOW)

/-- Python's `min` over a list of timestamps; the code only calls it on a
nonempty list (the denied branch has at least `DOWNLOAD_RATE_LIMIT` entries),
so the default for `[]` is never reached. -/
def listMin : List Int → Int
  | [] => 0
  | t :: ts => ts.foldl min t

/-- Function `check_download_rate_limit(ip)` from `src/app.py`.
State is the `download_requests` defaultdict (default `[]`); the current
time is passed explicitly. Returns the `(allowed, remaining, reset_seconds)`
triple and the post-call state. -/
def check_download_rate_limit (st : String → List Int) (ip : String) (now : Int) :
    AdmitResult × (String → List Int) :=
  let pruned := pruneWindow now (st ip)
  let remaining : Int := (DOWNLOAD_RATE_LIMIT : Int) - pruned.length
  if remaining ≤ 0 then
    let oldest := listMin pruned
    let reset_seconds := DOWNLOAD_RATE_WINDOW - (now - oldest)
    (⟨false, 0, reset_seconds⟩, fun k => if k = ip then pruned else st k)
  else
    (⟨true, remaining - 1, 0⟩, fun k => if k = ip then pruned ++ [now] else st k)

/-- Iterates `n` successive admission attempts by client `ip`, all at the same
instant `now` ("issuing N admits instantly"). -/
def admitN : Nat → (String → List Int) → String → Int → (String → List Int)
  | 0, st, _, _ => st
  | n + 1, st, ip, now => admitN n (check_download_rate_limit st ip now).2 ip now

/-- The `status` strings stored in `download_progress` entries. -/
inductive Status where
  | starting
  | downloading
  | processing
  | complete
  | error
deriving DecidableEq

/-- One `download_progress[download_id]` dict. Keys that a given status's
dict literal does not set are modelled as `none` (the source builds a fresh
dict literal on every write, so absent keys really are absent). -/
structure JobState where
  status : Status
  percent : Option ℚ := none
  speed : Option ℚ := none
  eta : Option ℚ := none
  filename : Option String := none
  error : Option String := none
  timestamp : Int
deriving DecidableEq

/-- The `download_progress` dict: job id to its progress dict. -/
abbrev Registry := String → Option JobState

/-- A progress event dict `d` as delivered by the external tool to
`progress_hook`: `d['status']`, `d.get('total_bytes')`,
`d.get('total_bytes_estimate', 0)`, `d.get('downloaded_bytes', 0)`,
`d.get('speed', 0)`, `d.get('eta', 0)`. Byte counts are integers as the
tool reports them; `speed`/`eta` are passed through untouched. -/
structure HookDict where
  status : String
  total_bytes : Option Int
  total_bytes_estimate : Int
  downloaded_bytes : Int
  speed : ℚ
  eta : ℚ
deriving DecidableEq

/-- Computes `total = d.get('total_bytes') or d.get('total_bytes_estimate', 0)`:
Python's `or` falls through on `None` and on `0`. -/
def hookTotal (d : HookDict) : Int :=
  match d.total_bytes with
  | some t => if t = 0 then d.total_bytes_estimate else t
  | none => d.total_bytes_estimate

/-- Python's `round(x, 1)` on the percent value. -/
def round1 (q : ℚ) : ℚ := (round (q * 10) : ℤ) / 10

/-- Computes `percent = (downloaded / total) * 100 if total > 0 else 0`
(exact rational division; byte counts are integers). -/
def hookPercent (d : HookDict) : ℚ :=
  if hookTotal d > 0 then (d.downloaded_bytes : ℚ) / (hookTotal d : ℚ) * 100 else 0

/-- Function `progress_hook(d, download_id)` from `src/app.py`; `now` is the
`time.time()` value stamped into the written dict. Events whose status is
neither `'downloading'` nor `'finished'` leave the registry unchanged. -/
def progress_hook (d : HookDict) (download_id : String) (now : Int) (reg : Registry) :
    Registry :=
  if d.status = "downloading" then
    fun k =>
      if k = download_id then
        some { status := .downloading, percent := some (round1 (hookPercent d)),
               speed := some d.speed, eta := some d.eta, timestamp := now }
      else reg k
  else if d.status = "finished" then
    fun k =>
      if k = download_id then
        some { status := .processing, percent := some 100, timestamp := now }
      else reg k
  else reg

/-- The success epilogue of `download_video`: on normal return the worker
writes the `complete` dict with the artifact's base name. -/
def workerComplete (download_id : String) (basename : String) (now : Int)
    (reg : Registry) : Registry :=
  fun k =>
    if k = download_id then
      some { status := .complete, percent := some 100, filename := some basename,
             timestamp := now }
    else reg k

/-- The `except Exception as e` handler of `download_video`: the worker
writes the `error` dict with `'error': str(e)` — the raw exception text. -/
def workerError (download_id : String) (msg : String) (now : Int)
    (reg : Registry) : Registry :=
  fun k =>
    if k = download_id then
      some { status := .error, error := some msg, timestamp := now }
    else reg k

/-- A worker run outcome: `extract_info` returned normally with an artifact
base name, or raised with message `str(e)`. -/
inductive Outcome where
  | success (basename : String)
  | failure (msg : String)

/-- One `download_video` worker execution, as the source orders it: the
tool's progress events fire `progress_hook` in order, then the worker makes
its single terminal write (`complete` on return, `error` on exception). -/
def runWorker (download_id : String) (events : List (HookDict × Int))
    (outcome : Outcome) (tEnd : Int) (reg : Registry) : Registry :=
  let reg1 := events.foldl (fun r p => progress_hook p.1 download_id p.2 r) reg
  match outcome with
  | .success b => workerComplete download_id b tEnd reg1
  | .failure m => workerError download_id m tEnd reg1

/-- The initialisation in the `/download` route:
`download_progress[download_id] = {'status': 'starting', 'percent': 0, 'timestamp': time.time()}`. -/
def createJob (download_id : String) (now : Int) (reg : Registry) : Registry :=
  fun k =>
    if k = download_id then
      some { status := .starting, percent := some 0, timestamp := now }
    else reg k

/-- Function `cleanup_old_progress(max_age_seconds)`: delete every key whose entry's
timestamp is `< now - max_age_seconds`. (Every entry the source ever writes
carries a `'timestamp'` key, so the `.get('timestamp', 0)` default is moot.) -/
def cleanup_old_progress (now : Int) (max_age_seconds : Int) (reg : Registry) :
    Registry :=
  fun k =>
    match reg k with
    | none => none
    | some v => if v.timestamp < now - max_age_seconds then none else some v

/-- The `/progress/<download_id>` route body: return the entry if present
(404 otherwise, modelled as `none`). -/
def getProgress (reg : Registry) (download_id : String) : Option JobState :=
  reg download_id

/-- The cooldown gate at the top of `update_ytdlp` plus the
`last_update_time = now` stamp: given the current `last_update_time` and
`now`, returns `(passed, new last_update_time, retry hint)`. A denied call
answers 429 with `int(UPDATE_COOLDOWN - (now - last_update_time))` and
leaves the timer untouched; a passing call stamps the timer to `now`. -/
def update_ytdlp_cooldown (last_update_time : Int) (now : Int) :
    Bool × Int × Int :=
  if now - last_update_time < UPDATE_COOLDOWN then
    (false, last_update_time, UPDATE_COOLDOWN - (now - last_update_time))
  else
    (true, now, 0)

/-- C7: `Create(jobID)` (the `/download` route's initialisation) inserts a
JobState with status `starting`, percent `0` and `lastUpdated = now`, and a
`Get(jobID)` (the `/progress` route) performed immediately after returns
status `starting` and percent `0`. -/
theorem create_then_get_starting (download_id : String) (now : Int) (reg : Registry) :
    getProgress (createJob download_id now reg) download_id =
      some { status := .starting, percent := some 0, timestamp := now } ∧
    (getProgress (createJob download_id now reg) download_id).map JobState.status =
      some Status.starting ∧
    (getProgress (createJob download_id now reg) download_id).map JobState.percent =
      some (some 0) := by
  refine ⟨?_, ?_, ?_⟩ <;> simp [getProgress, createJob]

/-- C8: `cleanup_old_progress(maxAge)` removes exactly the entries whose
timestamp precedes `now - maxAge` and leaves every newer entry unchanged:
the post-state maps a key to `none` iff it was absent or stale, and to
`some v` iff it was `some v` with `v` not stale. -/
theorem cleanup_evicts_exactly_old (now max_age_seconds : Int) (reg : Registry)
    (k : String) :
    (cleanup_old_progress now max_age_seconds reg k = none ↔
        reg k = none ∨ ∃ v, reg k = some v ∧ v.timestamp < now - max_age_seconds) ∧
    ∀ v, (cleanup_old_progress now max_age_seconds reg k = some v ↔
        reg k = some v ∧ ¬ v.timestamp < now - max_age_seconds) := by
  unfold cleanup_old_progress
  cases h : reg k with
  | none => simp
  | some v =>
    constructor
    · by_cases hv : v.timestamp < now - max_age_seconds <;> simp [hv]
    · intro w
      by_cases hv : v.timestamp < now - max_age_seconds
      · simp only [hv, if_true]
        constructor
        · intro hw
          exact absurd hw (by simp)
        · rintro ⟨hw, hw2⟩
          rw [Option.some_inj] at hw
          subst hw
          exact absurd hv hw2
      · simp only [hv, if_false]
        constructor
        · rintro hw
          rw [Option.some_inj] at hw
          subst hw
          exact ⟨rfl, hv⟩
        · rintro ⟨hw, -⟩
          rw [Option.some_inj] at hw
          rw [hw]

/-- C9: the `update_ytdlp` cooldown gate succeeds and stamps
`last_update_time = now` exactly when `now - last_update_time >= UPDATE_COOLDOWN`,
and otherwise fails leaving the timer unchanged (with the retry hint
`UPDATE_COOLDOWN - (now - last_update_time)`); consequently two calls within
the cooldown interval yield true then false, and a third call once the
cooldown has elapsed yields true again. -/
theorem cooldown_guard_try_acquire (last now t1 t2 t3 last0 : Int)
    (h1 : UPDATE_COOLDOWN ≤ t1 - last0)
    (h2 : t2 - t1 < UPDATE_COOLDOWN)
    (h3 : UPDATE_COOLDOWN ≤ t3 - t1) :
    ((UPDATE_COOLDOWN ≤ now - last →
        update_ytdlp_cooldown last now = (true, now, 0)) ∧
     (now - last < UPDATE_COOLDOWN →
        update_ytdlp_cooldown last now =
          (false, last, UPDATE_COOLDOWN - (now - last)))) ∧
    ((update_ytdlp_cooldown last0 t1).1 = true ∧
     (update_ytdlp_cooldown last0 t1).2.1 = t1 ∧
     (update_ytdlp_cooldown (update_ytdlp_cooldown last0 t1).2.1 t2).1 = false ∧
     (update_ytdlp_cooldown (update_ytdlp_cooldown last0 t1).2.1 t2).2.1 = t1 ∧
     (update_ytdlp_cooldown (update_ytdlp_cooldown last0 t1).2.1 t3).1 = true) := by
  have hgate : ∀ l n : Int, UPDATE_COOLDOWN ≤ n - l →
      update_ytdlp_cooldown l n = (true, n, 0) := by
    intro l n h
    have hn : ¬ n - l < UPDATE_COOLDOWN := by omega
    unfold update_ytdlp_cooldown
    rw [if_neg hn]
  have hgate' : ∀ l n : Int, n - l < UPDATE_COOLDOWN →
      update_ytdlp_cooldown l n = (false, l, UPDATE_COOLDOWN - (n - l)) := by
    intro l n h
    unfold update_ytdlp_cooldown
    rw [if_pos h]
  refine ⟨⟨hgate last now, hgate' last now⟩, ?_⟩
  rw [hgate last0 t1 h1]
  rw [hgate' t1 t2 h2, hgate t1 t3 h3]
  exact ⟨rfl, rfl, rfl, rfl, rfl⟩

/-- Witness for `cooldown_guard_try_acquire` at `last0 = 0`, `t1 = 300`,
`t2 = 400`, `t3 = 700`. -/
theorem cooldown_guard_try_acquire_witness :
    (UPDATE_COOLDOWN ≤ (300 : Int) - 0 ∧ (400 : Int) - 300 < UPDATE_COOLDOWN ∧
      UPDATE_COOLDOWN ≤ (700 : Int) - 300) ∧
    (((UPDATE_COOLDOWN ≤ (50 : Int) - 0 →
        update_ytdlp_cooldown 0 50 = (true, 50, 0)) ∧
      ((50 : Int) - 0 < UPDATE_COOLDOWN →
        update_ytdlp_cooldown 0 50 =
          (false, 0, UPDATE_COOLDOWN - ((50 : Int) - 0)))) ∧
     ((update_ytdlp_cooldown 0 300).1 = true ∧
      (update_ytdlp_cooldown 0 300).2.1 = 300 ∧
      (update_ytdlp_cooldown (update_ytdlp_cooldown 0 300).2.1 400).1 = false ∧
      (update_ytdlp_cooldown (update_ytdlp_cooldown 0 300).2.1 400).2.1 = 300 ∧
      (update_ytdlp_cooldown (update_ytdlp_cooldown 0 300).2.1 700).1 = true)) :=
  ⟨⟨by decide, by decide, by decide⟩,
    cooldown_guard_try_acquire 0 50 300 400 700 0 (by decide) (by decide) (by decide)⟩

/-- C10: a denied admission consumes no capacity: when
`check_download_rate_limit` answers `allowed = false`, the denied client's
stored list after the call is exactly its pruned pre-call list (no new
timestamp appended), and every other client's entry is unchanged. -/
theorem denied_admission_consumes_no_capacity (st : String → List Int)
    (ip : String) (now : Int)
    (h : (check_download_rate_limit st ip now).1.allowed = false) :
    (check_download_rate_limit st ip now).2 ip = pruneWindow now (st ip) ∧
    ∀ k, k ≠ ip → (check_download_rate_limit st ip now).2 k = st k := by
  unfold check_download_rate_limit at h ⊢
  by_cases hr : (DOWNLOAD_RATE_LIMIT : Int) - (pruneWindow now (st ip)).length ≤ 0
  · simp only [hr, if_true, if_pos hr]
    exact ⟨by simp, fun k hk => by simp [hk]⟩
  · simp [hr] at h

/-- Witness for `denied_admission_consumes_no_capacity`: a client with ten
fresh timestamps is denied, and the theorem applies. -/
theorem denied_admission_consumes_no_capacity_witness :
    (check_download_rate_limit (fun _ => [0, 0, 0, 0, 0, 0, 0, 0, 0, 0]) "a" 0).1.allowed
        = false ∧
    ((check_download_rate_limit (fun _ => [0, 0, 0, 0, 0, 0, 0, 0, 0, 0]) "a" 0).2 "a"
        = pruneWindow 0 ((fun _ => [0, 0, 0, 0, 0, 0, 0, 0, 0, 0]) "a") ∧
     ∀ k, k ≠ "a" →
        (check_download_rate_limit (fun _ => [0, 0, 0, 0, 0, 0, 0, 0, 0, 0]) "a" 0).2 k
          = (fun _ => [0, 0, 0, 0, 0, 0, 0, 0, 0, 0]) k) :=
  ⟨by decide,
    denied_admission_consumes_no_capacity (fun _ => [0, 0, 0, 0, 0, 0, 0, 0, 0, 0])
      "a" 0 (by decide)⟩

theorem round1_mono {a b : ℚ} (h : a ≤ b) : round1 a ≤ round1 b := by
  unfold round1
  have hr : round (a * 10) ≤ round (b * 10) := by
    rw [round_eq, round_eq]
    exact Int.floor_mono (by linarith)
  have hc : ((round (a * 10) : ℤ) : ℚ) ≤ ((round (b * 10) : ℤ) : ℚ) := by exact_mod_cast hr
  linarith

theorem round1_nonneg {a : ℚ} (h : 0 ≤ a) : 0 ≤ round1 a := by
  have h0 : round1 0 ≤ round1 a := round1_mono h
  have hz : round1 0 = 0 := by norm_num [round1]
  linarith

theorem round1_le_100 {a : ℚ} (h : a ≤ 100) : round1 a ≤ 100 := by
  have h0 : round1 a ≤ round1 100 := round1_mono h
  have hh : round1 100 = 100 := by norm_num [round1, round_ofNat]
  linarith

theorem hookPercent_nonneg (d : HookDict) (hdl : 0 ≤ d.downloaded_bytes) :
    0 ≤ hookPercent d := by
  unfold hookPercent
  split
  · have hdl' : (0 : ℚ) ≤ (d.downloaded_bytes : ℚ) := by exact_mod_cast hdl
    have ht : (0 : ℚ) ≤ (hookTotal d : ℚ) := by
      have : (0 : Int) < hookTotal d := by assumption
      exact_mod_cast this.le
    have := div_nonneg hdl' ht
    linarith
  · exact le_refl 0

theorem hookPercent_le_100 (d : HookDict) (hle : d.downloaded_bytes ≤ hookTotal d) :
    hookPercent d ≤ 100 := by
  unfold hookPercent
  split
  · have ht : (0 : ℚ) < (hookTotal d : ℚ) := by
      have : (0 : Int) < hookTotal d := by assumption
      exact_mod_cast this
    have hle' : (d.downloaded_bytes : ℚ) ≤ (hookTotal d : ℚ) := by exact_mod_cast hle
    have hdiv : (d.downloaded_bytes : ℚ) / (hookTotal d : ℚ) ≤ 1 :=
      (div_le_one ht).mpr hle'
    linarith
  · norm_num

theorem hookPercent_mono (d1 d2 : HookDict)
    (ht1 : 0 < hookTotal d1) (ht2 : 0 < hookTotal d2)
    (hmono : d1.downloaded_bytes * hookTotal d2 ≤ d2.downloaded_bytes * hookTotal d1) :
    hookPercent d1 ≤ hookPercent d2 := by
  unfold hookPercent
  rw [if_pos ht1, if_pos ht2]
  have ht1' : (0 : ℚ) < (hookTotal d1 : ℚ) := by exact_mod_cast ht1
  have ht2' : (0 : ℚ) < (hookTotal d2 : ℚ) := by exact_mod_cast ht2
  have hm : (d1.downloaded_bytes : ℚ) * (hookTotal d2 : ℚ) ≤
      (d2.downloaded_bytes : ℚ) * (hookTotal d1 : ℚ) := by exact_mod_cast hmono
  have hdiv : (d1.downloaded_bytes : ℚ) / (hookTotal d1 : ℚ) ≤
      (d2.downloaded_bytes : ℚ) / (hookTotal d2 : ℚ) :=
    (div_le_div_iff₀ ht1' ht2').mpr hm
  linarith

/-- C2 (amended): the hook stores exactly the producer's reported completion
ratio, unclamped; hence percent stays in `[0, 100]` and is non-decreasing
across `downloading` updates precisely when the tool's reports satisfy
`0 ≤ downloaded ≤ total`, `total > 0`, and a non-decreasing ratio. -/
theorem downloading_percent_bounded_monotone_if_producer_clamps
    (d1 d2 : HookDict) (download_id : String) (t1 t2 : Int) (reg : Registry)
    (h1 : d1.status = "downloading") (h2 : d2.status = "downloading")
    (hdl1 : 0 ≤ d1.downloaded_bytes) (hle1 : d1.downloaded_bytes ≤ hookTotal d1)
    (ht1 : 0 < hookTotal d1)
    (hdl2 : 0 ≤ d2.downloaded_bytes) (hle2 : d2.downloaded_bytes ≤ hookTotal d2)
    (ht2 : 0 < hookTotal d2)
    (hmono : d1.downloaded_bytes * hookTotal d2 ≤ d2.downloaded_bytes * hookTotal d1) :
    getProgress (progress_hook d1 download_id t1 reg) download_id =
      some { status := .downloading, percent := some (round1 (hookPercent d1)),
             speed := some d1.speed, eta := some d1.eta, timestamp := t1 } ∧
    getProgress (progress_hook d2 download_id t2 (progress_hook d1 download_id t1 reg))
        download_id =
      some { status := .downloading, percent := some (round1 (hookPercent d2)),
             speed := some d2.speed, eta := some d2.eta, timestamp := t2 } ∧
    0 ≤ round1 (hookPercent d1) ∧ round1 (hookPercent d1) ≤ 100 ∧
    0 ≤ round1 (hookPercent d2) ∧ round1 (hookPercent d2) ≤ 100 ∧
    round1 (hookPercent d1) ≤ round1 (hookPercent d2) := by
  refine ⟨?_, ?_, ?_, ?_, ?_, ?_, ?_⟩
  · simp [getProgress, progress_hook, h1]
  · simp [getProgress, progress_hook, h2]
  · exact round1_nonneg (hookPercent_nonneg d1 hdl1)
  · exact round1_le_100 (hookPercent_le_100 d1 hle1)
  · exact round1_nonneg (hookPercent_nonneg d2 hdl2)
  · exact round1_le_100 (hookPercent_le_100 d2 hle2)
  · exact round1_mono (hookPercent_mono d1 d2 ht1 ht2 hmono)

/-- Witness for `downloading_percent_bounded_monotone_if_producer_clamps`:
two reports of 50 and then 80 bytes out of 100. -/
theorem downloading_percent_bounded_monotone_witness :
    ((0 : Int) ≤ 50 ∧ (50 : Int) ≤ hookTotal ⟨"downloading", some 100, 0, 50, 0, 0⟩ ∧
      (0 : Int) < hookTotal ⟨"downloading", some 100, 0, 50, 0, 0⟩ ∧
      (50 : Int) * hookTotal ⟨"downloading", some 100, 0, 80, 0, 0⟩ ≤
        (80 : Int) * hookTotal ⟨"downloading", some 100, 0, 50, 0, 0⟩) ∧
    (getProgress (progress_hook ⟨"downloading", some 100, 0, 50, 0, 0⟩ "j" 1
        (fun _ => none)) "j" =
      some { status := .downloading,
             percent := some (round1 (hookPercent ⟨"downloading", some 100, 0, 50, 0, 0⟩)),
             speed := some 0, eta := some 0, timestamp := 1 } ∧
     getProgress (progress_hook ⟨"downloading", some 100, 0, 80, 0, 0⟩ "j" 2
        (progress_hook ⟨"downloading", some 100, 0, 50, 0, 0⟩ "j" 1 (fun _ => none))) "j" =
      some { status := .downloading,
             percent := some (round1 (hookPercent ⟨"downloading", some 100, 0, 80, 0, 0⟩)),
             speed := some 0, eta := some 0, timestamp := 2 } ∧
     0 ≤ round1 (hookPercent ⟨"downloading", some 100, 0, 50, 0, 0⟩) ∧
     round1 (hookPercent ⟨"downloading", some 100, 0, 50, 0, 0⟩) ≤ 100 ∧
     0 ≤ round1 (hookPercent ⟨"downloading", some 100, 0, 80, 0, 0⟩) ∧
     round1 (hookPercent ⟨"downloading", some 100, 0, 80, 0, 0⟩) ≤ 100 ∧
     round1 (hookPercent ⟨"downloading", some 100, 0, 50, 0, 0⟩) ≤
       round1 (hookPercent ⟨"downloading", some 100, 0, 80, 0, 0⟩)) :=
  ⟨⟨by decide, by decide, by decide, by decide⟩,
    downloading_percent_bounded_monotone_if_producer_clamps
      ⟨"downloading", some 100, 0, 50, 0, 0⟩ ⟨"downloading", some 100, 0, 80, 0, 0⟩
      "j" 1 2 (fun _ => none) rfl rfl (by decide) (by decide) (by decide)
      (by decide) (by decide) (by decide) (by decide)⟩

/-- C2 counterexample: the code does not clamp — a second `downloading`
event reporting fewer bytes makes the observed percent drop from 50 to 25
while the status stays `downloading`, refuting monotonicity as claimed. -/
theorem percent_decrease_counterexample :
    (getProgress (progress_hook ⟨"downloading", some 100, 0, 50, 0, 0⟩ "j" 1
        (createJob "j" 0 (fun _ => none))) "j").map JobState.status =
      some Status.downloading ∧
    (getProgress (progress_hook ⟨"downloading", some 100, 0, 50, 0, 0⟩ "j" 1
        (createJob "j" 0 (fun _ => none))) "j").map JobState.percent = some (some 50) ∧
    (getProgress (progress_hook ⟨"downloading", some 100, 0, 25, 0, 0⟩ "j" 2
        (progress_hook ⟨"downloading", some 100, 0, 50, 0, 0⟩ "j" 1
          (createJob "j" 0 (fun _ => none)))) "j").map JobState.status =
      some Status.downloading ∧
    (getProgress (progress_hook ⟨"downloading", some 100, 0, 25, 0, 0⟩ "j" 2
        (progress_hook ⟨"downloading", some 100, 0, 50, 0, 0⟩ "j" 1
          (createJob "j" 0 (fun _ => none)))) "j").map JobState.percent =
      some (some 25) ∧
    ((25 : ℚ) < 50) := by
  have e50 : round1 (hookPercent ⟨"downloading", some 100, 0, 50, 0, 0⟩) = 50 := by
    have hp : hookPercent ⟨"downloading", some 100, 0, 50, 0, 0⟩ = 50 := by
      norm_num [hookPercent, hookTotal]
    rw [hp]
    norm_num [round1, round_ofNat]
  have e25 : round1 (hookPercent ⟨"downloading", some 100, 0, 25, 0, 0⟩) = 25 := by
    have hp : hookPercent ⟨"downloading", some 100, 0, 25, 0, 0⟩ = 25 := by
      norm_num [hookPercent, hookTotal]
    rw [hp]
    norm_num [round1, round_ofNat]
  refine ⟨?_, ?_, ?_, ?_, by norm_num⟩ <;>
    simp [getProgress, progress_hook, createJob, e50, e25]

/-- C3 (amended): within one worker execution the terminal write is the
last update, so a completed run leaves the job in exactly one terminal
state — `complete` with the filename on success, xor `error` with the
message on failure — whatever progress events preceded it. (The registry
itself applies updates unconditionally; see the counterexample.) -/
theorem worker_terminal_write_is_last (download_id : String)
    (events : List (HookDict × Int)) (outcome : Outcome) (tEnd : Int)
    (reg : Registry) :
    runWorker download_id events outcome tEnd reg download_id =
      some (match outcome with
        | .success b =>
            { status := Status.complete, percent := some 100, filename := some b,
              timestamp := tEnd }
        | .failure m =>
            { status := Status.error, error := some m, timestamp := tEnd }) := by
  cases outcome <;> simp [runWorker, workerComplete, workerError]

/-- C3 counterexample: statuses `complete`/`error` are not absorbing at the
registry level — applying `progress_hook` with a `downloading` event to a
job whose entry is `complete` overwrites the terminal status. -/
theorem terminal_status_overwritten_counterexample :
    (((fun k => if k = "j" then
        some { status := Status.complete, percent := some 100,
               filename := some "v.mp4", timestamp := 0 }
      else none) : Registry) "j").map JobState.status = some Status.complete ∧
    ((progress_hook ⟨"downloading", some 100, 0, 50, 0, 0⟩ "j" 1
      (fun k => if k = "j" then
        some { status := Status.complete, percent := some 100,
               filename := some "v.mp4", timestamp := 0 }
      else none)) "j").map JobState.status = some Status.downloading := by
  constructor
  · simp
  · simp [progress_hook]

/-- C4: the raw failure text — here containing an internal filesystem
path — is stored verbatim by the worker's exception handler and returned
as-is to the polling client by the `/progress` route. -/
theorem raw_error_text_reaches_client :
    getProgress
      (runWorker "j" []
        (Outcome.failure
          "ERROR: unable to open for writing: /app/downloads/abc123_clip.mp4 - No such file or directory")
        5 (createJob "j" 0 (fun _ => none))) "j" =
      some { status := Status.error,
             error := some
               "ERROR: unable to open for writing: /app/downloads/abc123_clip.mp4 - No such file or directory",
             timestamp := 5 } := by
  simp [getProgress, runWorker, workerError]

/-- C5 (amended): an `Update` (progress event) against an absent `jobID`
is not a no-op and raises nothing: the dict assignment creates the entry
with the update's contents. -/
theorem update_absent_job_creates_entry (d : HookDict) (download_id : String)
    (now : Int) (reg : Registry)
    ( _habsent : reg download_id = none) (hd : d.status = "downloading") :
    progress_hook d download_id now reg download_id =
      some { status := Status.downloading,
             percent := some (round1 (hookPercent d)),
             speed := some d.speed, eta := some d.eta, timestamp := now } := by
  simp [progress_hook, hd]

/-- Witness for `update_absent_job_creates_entry`: an update for the
never-created id `"x"` on the empty registry. -/
theorem update_absent_job_creates_entry_witness :
    (((fun _ => none) : Registry) "x" = none ∧
      (HookDict.status ⟨"downloading", some 100, 0, 50, 2, 3⟩ = "downloading")) ∧
    progress_hook ⟨"downloading", some 100, 0, 50, 2, 3⟩ "x" 7 (fun _ => none) "x" =
      some { status := Status.downloading,
             percent := some (round1 (hookPercent ⟨"downloading", some 100, 0, 50, 2, 3⟩)),
             speed := some 2, eta := some 3, timestamp := 7 } :=
  ⟨⟨rfl, rfl⟩,
    update_absent_job_creates_entry ⟨"downloading", some 100, 0, 50, 2, 3⟩ "x" 7
      (fun _ => none) rfl rfl⟩

/-- C5 counterexample: an update against an evicted or never-created job
resurrects the registry entry rather than being dropped. -/
theorem update_absent_job_not_noop_counterexample :
    (((fun _ => none) : Registry) "x" = none) ∧
    (progress_hook ⟨"downloading", some 100, 0, 50, 0, 0⟩ "x" 7 (fun _ => none)) "x"
      ≠ none := by
  exact ⟨rfl, by simp [progress_hook]⟩

/-- C6 (amended): `Create(jobID)` performs an unconditional dict
assignment: when `jobID` is already present it overwrites the existing
entry with a fresh `starting` state; no `DuplicateJobError` exists in the
code. -/
theorem create_overwrites_existing (download_id : String) (now : Int)
    (reg : Registry) (s : JobState) ( _hpresent : reg download_id = some s) :
    createJob download_id now reg download_id =
      some { status := Status.starting, percent := some 0, timestamp := now } := by
  simp [createJob]

/-- Witness for `create_overwrites_existing`: creating over a registry
that maps every id to a finished job. -/
theorem create_overwrites_existing_witness :
    (((fun _ =>
        some { status := Status.complete, percent := some 100,
               filename := some "v.mp4", timestamp := 3 }) : Registry) "a" =
      some { status := Status.complete, percent := some 100,
             filename := some "v.mp4", timestamp := 3 }) ∧
    createJob "a" 9
        (fun _ =>
          some { status := Status.complete, percent := some 100,
                 filename := some "v.mp4", timestamp := 3 }) "a" =
      some { status := Status.starting, percent := some 0, timestamp := 9 } :=
  ⟨rfl,
    create_overwrites_existing "a" 9
      (fun _ =>
        some { status := Status.complete, percent := some 100,
               filename := some "v.mp4", timestamp := 3 })
      { status := Status.complete, percent := some 100,
        filename := some "v.mp4", timestamp := 3 } rfl⟩

/-- C6 counterexample: `Create` on an id that is already present does not
fail — it silently replaces the old `complete` entry with a fresh
`starting` one. -/
theorem create_does_not_fail_on_duplicate_counterexample :
    (((fun k => if k = "a" then
        some { status := Status.complete, percent := some 100,
               filename := some "v.mp4", timestamp := 3 }
      else none) : Registry) "a").isSome = true ∧
    createJob "a" 9
        (fun k => if k = "a" then
          some { status := Status.complete, percent := some 100,
                 filename := some "v.mp4", timestamp := 3 }
        else none) "a" =
      some { status := Status.starting, percent := some 0, timestamp := 9 } := by
  constructor
  · simp
  · simp [createJob]

theorem check_eq_denied (st : String → List Int) (ip : String) (now : Int)
    (h : (DOWNLOAD_RATE_LIMIT : Int) - (pruneWindow now (st ip)).length ≤ 0) :
    check_download_rate_limit st ip now =
      (⟨false, 0, DOWNLOAD_RATE_WINDOW - (now - listMin (pruneWindow now (st ip)))⟩,
       fun k => if k = ip then pruneWindow now (st ip) else st k) := by
  simp only [check_download_rate_limit]
  rw [if_pos h]

theorem check_eq_allowed (st : String → List Int) (ip : String) (now : Int)
    (h : ¬ (DOWNLOAD_RATE_LIMIT : Int) - (pruneWindow now (st ip)).length ≤ 0) :
    check_download_rate_limit st ip now =
      (⟨true, (DOWNLOAD_RATE_LIMIT : Int) - (pruneWindow now (st ip)).length - 1, 0⟩,
       fun k => if k = ip then pruneWindow now (st ip) ++ [now] else st k) := by
  simp only [check_download_rate_limit]
  rw [if_neg h]

theorem pruneWindow_replicate (now : Int) (n : Nat) :
    pruneWindow now (List.replicate n now) = List.replicate n now := by
  apply List.filter_eq_self.mpr
  intro a ha
  rw [List.eq_of_mem_replicate ha]
  simp [DOWNLOAD_RATE_WINDOW]

theorem foldl_min_replicate (a : Int) (n : Nat) :
    List.foldl min a (List.replicate n a) = a := by
  induction n with
  | zero => rfl
  | succ n ih => simp [List.replicate_succ, min_self, ih]

theorem listMin_replicate (n : Nat) (a : Int) :
    listMin (List.replicate (n + 1) a) = a := by
  rw [List.replicate_succ]
  simp [listMin, foldl_min_replicate]

theorem admit_step (st : String → List Int) (ip : String) (now : Int) (k : Nat)
    (hst : st ip = List.replicate k now) (hk : k < DOWNLOAD_RATE_LIMIT) :
    (check_download_rate_limit st ip now).2 ip = List.replicate (k + 1) now := by
  have hpr : pruneWindow now (st ip) = List.replicate k now := by
    rw [hst]; exact pruneWindow_replicate now k
  have hc : ¬ (DOWNLOAD_RATE_LIMIT : Int) - (pruneWindow now (st ip)).length ≤ 0 := by
    rw [hpr]
    simp only [List.length_replicate]
    simp only [DOWNLOAD_RATE_LIMIT] at hk ⊢
    omega
  rw [check_eq_allowed st ip now hc]
  simp [hpr, List.replicate_succ']

theorem admitN_replicate (ip : String) (now : Int) :
    ∀ n k : Nat, n + k ≤ DOWNLOAD_RATE_LIMIT →
      ∀ st : String → List Int, st ip = List.replicate k now →
        (admitN n st ip now) ip = List.replicate (k + n) now := by
  intro n
  induction n with
  | zero =>
      intro k h st hst
      simpa using hst
  | succ n ih =>
      intro k h st hst
      have hk : k < DOWNLOAD_RATE_LIMIT := by
        simp only [DOWNLOAD_RATE_LIMIT] at h ⊢; omega
      have hstep := admit_step st ip now k hst hk
      have hrec := ih (k + 1) (by omega) (check_download_rate_limit st ip now).2 hstep
      have harith : k + 1 + n = k + (n + 1) := by omega
      rw [harith] at hrec
      exact hrec

theorem admitN_full (ip : String) (now : Int) :
    (admitN DOWNLOAD_RATE_LIMIT (fun _ => []) ip now) ip =
      List.replicate DOWNLOAD_RATE_LIMIT now := by
  have := admitN_replicate ip now DOWNLOAD_RATE_LIMIT 0 (by omega) (fun _ => []) rfl
  simpa using this

/-- C1: `check_download_rate_limit` is an exact sliding window. The stored
list after a call is the pruned pre-call list, plus `now` iff the call was
allowed; if the remaining capacity `N - count` (over the pruned list) is
positive the call is allowed with `remaining = N - count - 1`, otherwise it
is denied with `remaining = 0` and `reset_seconds = W - (now - oldest)`.
In particular a client that issued `N` admits at instant `now` is denied on
the `(N+1)`th attempt with `remaining = 0` and a positive retry hint, and
any attempt at a time `u ≥ now + W` is allowed again. -/
theorem rate_limiter_sliding_window (st : String → List Int) (ip : String)
    (now : Int) :
    ((check_download_rate_limit st ip now).2 ip =
        pruneWindow now (st ip) ++
          (if (check_download_rate_limit st ip now).1.allowed then [now] else [])) ∧
    (if 0 < (DOWNLOAD_RATE_LIMIT : Int) - (pruneWindow now (st ip)).length then
        (check_download_rate_limit st ip now).1 =
          ⟨true, (DOWNLOAD_RATE_LIMIT : Int) - (pruneWindow now (st ip)).length - 1, 0⟩
      else
        (check_download_rate_limit st ip now).1 =
          ⟨false, 0,
            DOWNLOAD_RATE_WINDOW - (now - listMin (pruneWindow now (st ip)))⟩) ∧
    ((check_download_rate_limit (admitN DOWNLOAD_RATE_LIMIT (fun _ => []) ip now)
        ip now).1.allowed = false ∧
     (check_download_rate_limit (admitN DOWNLOAD_RATE_LIMIT (fun _ => []) ip now)
        ip now).1.remaining = 0 ∧
     0 < (check_download_rate_limit (admitN DOWNLOAD_RATE_LIMIT (fun _ => []) ip now)
        ip now).1.reset_seconds ∧
     ∀ u : Int, now + DOWNLOAD_RATE_WINDOW ≤ u →
       (check_download_rate_limit (admitN DOWNLOAD_RATE_LIMIT (fun _ => []) ip now)
          ip u).1.allowed = true) := by
  refine ⟨?_, ?_, ?_⟩
  · by_cases hc : (DOWNLOAD_RATE_LIMIT : Int) - (pruneWindow now (st ip)).length ≤ 0
    · rw [check_eq_denied st ip now hc]
      simp
    · rw [check_eq_allowed st ip now hc]
      simp
  · by_cases hc : (DOWNLOAD_RATE_LIMIT : Int) - (pruneWindow now (st ip)).length ≤ 0
    · rw [if_neg (by omega), check_eq_denied st ip now hc]
    · rw [if_pos (by omega), check_eq_allowed st ip now hc]
  · have hfull := admitN_full ip now
    have hpr : pruneWindow now ((admitN DOWNLOAD_RATE_LIMIT (fun _ => []) ip now) ip) =
        List.replicate DOWNLOAD_RATE_LIMIT now := by
      rw [hfull]; exact pruneWindow_replicate now DOWNLOAD_RATE_LIMIT
    have hc : (DOWNLOAD_RATE_LIMIT : Int) -
        (pruneWindow now ((admitN DOWNLOAD_RATE_LIMIT (fun _ => []) ip now) ip)).length
          ≤ 0 := by
      rw [hpr]; simp
    have hmin : listMin (pruneWindow now
        ((admitN DOWNLOAD_RATE_LIMIT (fun _ => []) ip now) ip)) = now := by
      rw [hpr]
      exact listMin_replicate 9 now
    rw [check_eq_denied _ ip now hc]
    refine ⟨rfl, rfl, ?_, ?_⟩
    · rw [hmin]
      simp [DOWNLOAD_RATE_WINDOW]
    · intro u hu
      have hempty : pruneWindow u ((admitN DOWNLOAD_RATE_LIMIT (fun _ => []) ip now) ip)
          = [] := by
        rw [hfull]
        apply List.filter_eq_nil_iff.mpr
        intro a ha
        rw [List.eq_of_mem_replicate ha]
        simp only [DOWNLOAD_RATE_WINDOW, decide_eq_true_eq] at hu ⊢
        omega
      have hca : ¬ (DOWNLOAD_RATE_LIMIT : Int) -
          (pruneWindow u ((admitN DOWNLOAD_RATE_LIMIT (fun _ => []) ip now) ip)).length
            ≤ 0 := by
        rw [hempty]; simp [DOWNLOAD_RATE_LIMIT]
      rw [check_eq_allowed _ ip u hca]

/-- Witness for `rate_limiter_sliding_window`, instantiating the inner
quantifier of the scenario conjunct: after ten instant admissions at time
`0`, the attempt at time `600 = W` is allowed again. -/
theorem rate_limiter_sliding_window_witness :
    ((0 : Int) + DOWNLOAD_RATE_WINDOW ≤ 600) ∧
    (check_download_rate_limit (admitN DOWNLOAD_RATE_LIMIT (fun _ => []) "a" 0)
        "a" 600).1.allowed = true :=
  ⟨by decide, (rate_limiter_sliding_window (fun _ => []) "a" 0).2.2.2.2.2 600 (by decide)⟩

end YtDownload
